import Mathlib

namespace Bootstrap

/-- `str.split(d)` in Python: splits a character list at every occurrence of
the delimiter; the empty string splits to `[[]]`. -/
def pySplitOn (d : Char) : List Char → List (List Char)
  | [] => [[]]
  | c :: s =>
    let r := pySplitOn d s
    if c = d then [] :: r
    else
      match r with
      | [] => [[c]]
      | h :: t => (c :: h) :: t

/-- Splits a character list at the first occurrence of the delimiter, if any
(Python `str.split(d, 1)` / `str.find`-based splitting). -/
def splitOnFirst (d : Char) : List Char → Option (List Char × List Char)
  | [] => none
  | c :: s =>
    if c = d then some ([], s)
    else (splitOnFirst d s).map (fun p => (c :: p.1, p.2))

/-- `pat in s` in Python (`str.find(pat) != -1`): `pat` occurs as a contiguous
substring of `s`. -/
def occursIn (pat : List Char) : List Char → Bool
  | [] => pat.isEmpty
  | c :: s => pat.isPrefixOf (c :: s) || occursIn pat (s)

/-- Worker for `pyReplace`.  The `Nat` argument counts characters that still
belong to an already-replaced occurrence of `old` and must be dropped without
being emitted; at `0` the scan looks for the next occurrence. -/
def pyReplaceA (old new : List Char) : List Char → Nat → List Char
  | [], _ => []
  | _ :: s, Nat.succ k => pyReplaceA old new s k
  | c :: s, 0 =>
    if old ≠ [] ∧ old.isPrefixOf (c :: s) then
      new ++ pyReplaceA old new s (old.length - 1)
    else
      c :: pyReplaceA old new s 0

/-- `s.replace(old, new)` in Python: replaces every leftmost, non-overlapping
occurrence of `old` by `new`.  (Python additionally inserts `new` at every
position when `old` is empty; every call in the source uses a non-empty
`old`, and this model leaves the string unchanged in that unreachable case.) -/
def pyReplace (old new s : List Char) : List Char :=
  pyReplaceA old new s 0

/-! ## Model of Python `urlparse`

The script imports `urlparse` from `urllib.parse` (Python 3) or `urlparse`
(Python 2).  `getBootstrapURL` only ever hands `urlparse` a string beginning
with `//`, `http://` or `https://`; on such inputs the two library versions
agree, and the model below follows the CPython 3 implementation of
`urlsplit`/`urlparse`: scheme split at the first `:` when the prefix is a
well-formed scheme, network location after `//` up to the first of `/?#`,
then fragment after `#`, query after `?`, and params after the `;` of the
last path segment.  (CPython's unicode NFKC netloc check is omitted: it can
only reject non-ASCII input, which the embedded call sites never produce.) -/

/-- Characters allowed in a URL scheme after the initial letter
(CPython `scheme_chars`). -/
def schemeChar (c : Char) : Bool :=
  c.isAlphanum || c = '+' || c = '-' || c = '.'

/-- Characters terminating the network-location component
(CPython `_splitnetloc` delimiters `/?#`). -/
def netlocDelim (c : Char) : Bool :=
  c = '/' || c = '?' || c = '#'

/-- Scheme detection of CPython `urlsplit`: split at the first `:` when the
text before it is non-empty, starts with a letter and consists of scheme
characters; the scheme is lower-cased. -/
def splitScheme (url : List Char) : List Char × List Char :=
  match splitOnFirst ':' url with
  | none => ([], url)
  | some (before, after) =>
    match before with
    | [] => ([], url)
    | c :: _ =>
      if c.isAlpha ∧ before.all schemeChar then (before.map Char.toLower, after)
      else ([], url)

/-- `(init, seg)` with `url = init ++ seg` and `seg` the part after the last
`/` (the whole string when there is no `/`). -/
def splitLastSegment (url : List Char) : List Char × List Char :=
  ((url.reverse.dropWhile (fun c => c ≠ '/')).reverse,
   (url.reverse.takeWhile (fun c => c ≠ '/')).reverse)

/-- CPython `_splitparams`: split the `;`-params off the last path segment. -/
def splitParamsPy (url : List Char) : List Char × List Char :=
  if url.contains '/' then
    match splitOnFirst ';' (splitLastSegment url).2 with
    | some (a, b) => ((splitLastSegment url).1 ++ a, b)
    | none => (url, [])
  else
    match splitOnFirst ';' url with
    | some (a, b) => (a, b)
    | none => (url, [])

/-- Result of `urlparse`: the `ParseResult` named tuple
`(scheme, netloc, path, params, query, fragment)`. -/
structure URL where
  scheme : List Char
  netloc : List Char
  path : List Char
  params : List Char
  query : List Char
  fragment : List Char
deriving DecidableEq, Repr

/-- CPython `urlparse` (see the section comment above). -/
def urlparse (url : List Char) : URL :=
  let sp := splitScheme url
  let scheme := sp.1
  let rest := sp.2
  let nl :=
    if (['/', '/']).isPrefixOf rest then
      ((rest.drop 2).takeWhile (fun c => !netlocDelim c),
       (rest.drop 2).dropWhile (fun c => !netlocDelim c))
    else ([], rest)
  let netloc := nl.1
  let fr :=
    match splitOnFirst '#' nl.2 with
    | some (a, b) => (a, b)
    | none => (nl.2, [])
  let qu :=
    match splitOnFirst '?' fr.1 with
    | some (a, b) => (a, b)
    | none => (fr.1, [])
  let pp := splitParamsPy qu.1
  ⟨scheme, netloc, pp.1, pp.2, qu.2, fr.2⟩

/-! ## Embedding of `BootstrapScriptWithToken/bootstrap.py`

Strings are embedded as `List Char`.  External effects (subprocess results,
HTTP responses, JSON parses) enter as explicit arguments: each embedded
function takes the outcome of the effect it performs and computes what the
source does with that outcome.  Sysdb/Cell platform handles, logging and
file writes carry no control flow and are omitted. -/

/-- Constant `SECURE_HTTPS_PORT = "443"`. -/
def SECURE_HTTPS_PORT : List Char := ("443").toList

/-- Constant `SECURE_TOKEN = "token-secure"`. -/
def SECURE_TOKEN : List Char := ("token-secure").toList

/-- Constant `INGEST_TOKEN = "token"`. -/
def INGEST_TOKEN : List Char := ("token").toList

/-- Constant `REDIRECTOR_PATH`. -/
def REDIRECTOR_PATH : List Char :=
  ("api/v3/services/arista.redirector.v1.AssignmentService/GetOne").toList

/-- Constant `TOKEN_FILE_PATH = "/tmp/token.tok"`. -/
def TOKEN_FILE_PATH : List Char := ("/tmp/token.tok").toList

/-- The Python substring `"apiserver"`. -/
def apiserverStr : List Char := ("apiserver").toList

/-- The Python substring `"www"`. -/
def wwwStr : List Char := ("www").toList

/-- The default enrollment path `"/ztp/bootstrap"`. -/
def ztpBootstrapPath : List Char := ("/ztp/bootstrap").toList

/-- `BootstrapManager.getBootstrapURL` (bootstrap.py lines 304-321).
`isCloud` models `isinstance(self, CloudBootstrapManager)`. -/
def getBootstrapURL (isCloud : Bool) (addr : List Char) : URL :=
  let addr1 :=
    if (("//").toList.isPrefixOf addr || ("http://").toList.isPrefixOf addr ||
        ("https://").toList.isPrefixOf addr) then addr
    else ("//").toList ++ addr
  let addr2 := if isCloud then pyReplace apiserverStr wwwStr addr1 else addr1
  let u := urlparse addr2
  let u1 := if u.netloc = [] then { u with path := [], netloc := u.path } else u
  let u2 := if u1.path = [] then { u1 with path := ztpBootstrapPath } else u1
  if u2.scheme = [] then
    { u2 with scheme := if isCloud then ("https").toList else ("http").toList }
  else u2

/-- The mutable fields of `BootstrapManager` (bootstrap.py lines 287-302);
the Sysdb path helper and cell id are platform handles with no control flow
and are not part of the state. -/
structure ManagerState where
  bootstrapURL : Option URL
  redirectorURL : Option URL
  tokenType : Option (List Char)
  enrollAddr : Option (List Char)
  certificate : List Char
  key : List Char
deriving DecidableEq, Repr

/-- Field values set by `BootstrapManager.__init__`. -/
def baseInit : ManagerState :=
  { bootstrapURL := none, redirectorURL := none, tokenType := none,
    enrollAddr := none, certificate := [], key := [] }

/-- `CloudBootstrapManager.__init__` (bootstrap.py lines 511-516). -/
def cloudInit (cvAddr : List Char) : ManagerState :=
  let b := getBootstrapURL true cvAddr
  { baseInit with
    bootstrapURL := some b,
    redirectorURL := some { b with path := REDIRECTOR_PATH },
    tokenType := some SECURE_TOKEN,
    enrollAddr := none }

/-- `OnPremBootstrapManager.__init__` (bootstrap.py lines 524-529). -/
def onPremInit (cvAddr : List Char) : ManagerState :=
  let b := getBootstrapURL false cvAddr
  { baseInit with
    bootstrapURL := some b,
    redirectorURL := none,
    tokenType := some INGEST_TOKEN,
    enrollAddr := some b.netloc }

/-- Python exception values raised by the embedded code paths. -/
inductive PyExn where
  | calledProcessError (returncode : Nat) (output : List Char)
  | valueError
  | keyError (key : List Char)
  | exception (msg : List Char)
deriving DecidableEq, Repr

/-- Result of a step: normal return with a value, or an uncaught exception. -/
inductive StepResult (α : Type) where
  | ok (value : α)
  | exn (e : PyExn)
deriving DecidableEq, Repr

/-- The message formatted at bootstrap.py line 340. -/
def noAssignmentMsg (err : List Char) : List Char :=
  ("No assignment found. Error talking to redirector: ").toList ++ err

/-- `BootstrapManager.checkWithRedirector` (bootstrap.py lines 326-353).
`redirResp` is the outcome of the POST to the redirector: `.error` for any
transport error or non-2xx status, `.ok a` for a 2xx response whose body
parses to first-cluster/first-host entry `a`.  The `Bool` component records
whether the network call was made. -/
def checkWithRedirector (isCloud : Bool) (st : ManagerState)
    (redirResp : Except (List Char) (List Char)) : StepResult ManagerState × Bool :=
  match st.redirectorURL with
  | none => (.ok st, false)
  | some _ =>
    match redirResp with
    | .error err => (.exn (.exception (noAssignmentMsg err)), true)
    | .ok assignment =>
      let b := getBootstrapURL isCloud assignment
      let e0 := b.netloc
      let e1 := if !(SECURE_HTTPS_PORT.isSuffixOf e0) then e0 ++ ':' :: SECURE_HTTPS_PORT else e0
      let e2 := pyReplace wwwStr apiserverStr e1
      (.ok { st with bootstrapURL := some b, enrollAddr := some e2 }, true)

/-- Host component of the manager's redirector URL, when one is configured. -/
def redirectorHost (st : ManagerState) : Option (List Char) :=
  st.redirectorURL.map URL.netloc

/-- The `enrollAddr` field after a successful redirector exchange returning
`assignment`, `none` if the step raised. -/
def enrollAddrAfterRedirect (isCloud : Bool) (st : ManagerState)
    (assignment : List Char) : Option (List Char) :=
  match (checkWithRedirector isCloud st (.ok assignment)).1 with
  | .ok st1 => st1.enrollAddr
  | .exn _ => none

/-- `CliManager.runCommands` (bootstrap.py lines 129-159).  `res` is the
outcome of the `FastCli` subprocess: `.error (rc, out)` for a
`CalledProcessError`, `.ok out` for a zero exit with captured output.  The
source then reports `(1, out)` when any output line starts with `%`, else
`(0, out)`. -/
def runCommands (res : Except (Nat × List Char) (List Char)) : Nat × List Char :=
  match res with
  | .error rcErr => rcErr
  | .ok out =>
    if out ≠ [] ∧ (pySplitOn '\n' out).any (fun line => (['%']).isPrefixOf line) then (1, out)
    else (0, out)

/-- Outcome of `tryImageUpgrade`: an exception propagated to the caller, or
normal completion (the reboot command has been accepted). -/
inductive UpgradeResult where
  | raised (e : PyExn)
  | completed
deriving DecidableEq, Repr

/-- The cli command `"enable"`. -/
def enableCmd : List Char := ("enable").toList

/-- The install command list built at bootstrap.py line 238. -/
def installCmdList (eosUrl : List Char) : List (List Char) :=
  [enableCmd,
   ("install source ").toList ++ eosUrl ++ (" destination flash:/EOS.swi").toList]

/-- The reboot command list built at bootstrap.py line 247. -/
def rebootCmdList : List (List Char) := [enableCmd, ("reload all now").toList]

/-- The message formatted at bootstrap.py lines 241-242. -/
def upgradeFailMsg (eosUrl cmdOut : List Char) : List Char :=
  ("Failed to upgrade EOS from ").toList ++ eosUrl ++ (", err: ").toList ++ cmdOut
    ++ (". Aborting.").toList

/-- The message formatted at bootstrap.py line 250. -/
def rebootFailMsg (cmdOut : List Char) : List Char :=
  ("Failed to reboot for image upgrade, err: ").toList ++ cmdOut ++ (". Aborting.").toList

/-- `tryImageUpgrade` (bootstrap.py lines 226-252).  `installRes`/`rebootRes`
are the `FastCli` subprocess outcomes for the install and reboot command
batches.  The second component lists the command batches actually issued.
(`CliManager.confidenceCheck` only asserts that the `FastCli` binary exists
on the device; it issues no command.) -/
def tryImageUpgrade (eosUrl : List Char) (e : PyExn)
    (installRes rebootRes : Except (Nat × List Char) (List Char)) :
    UpgradeResult × List (List (List Char)) :=
  if eosUrl = [] then (.raised e, [])
  else
    let ir := runCommands installRes
    if ir.1 ≠ 0 then
      (.raised (.exception (upgradeFailMsg eosUrl ir.2)), [installCmdList eosUrl])
    else
      let rr := runCommands rebootRes
      if rr.1 ≠ 0 then
        (.raised (.exception (rebootFailMsg rr.2)), [installCmdList eosUrl, rebootCmdList])
      else (.completed, [installCmdList eosUrl, rebootCmdList])

/-- The TerminAttr enrollment command string built at bootstrap.py
lines 365-374. -/
def enrollCmd (tokenType enrollAddr cvproxy : List Char) : List Char :=
  ("timeout 60s /usr/bin/TerminAttr").toList
    ++ (" -cvauth ").toList ++ tokenType ++ ',' :: TOKEN_FILE_PATH
    ++ (" -cvaddr ").toList ++ enrollAddr
    ++ (" -enrollonly").toList
    ++ (if cvproxy ≠ [] then (" -cvproxy=").toList ++ cvproxy else [])

/-- Normal return or uncaught exception of an enrollment step. -/
inductive StepOutcome where
  | completed
  | raised (e : PyExn)
deriving DecidableEq, Repr

/-- Observable behaviour of `getClientCerficates`: how the step ended,
whether `tryImageUpgrade` was entered, and the cli command batches issued. -/
structure EnrollStep where
  outcome : StepOutcome
  upgradeAttempted : Bool
  issuedCmds : List (List (List Char))
deriving DecidableEq, Repr

/-- `BootstrapManager.getClientCerficates` (bootstrap.py lines 358-390).
`enrollRc` is the exit code of the TerminAttr enrollment command (0 when
`check_output` returns normally) and `enrollOut` its captured output;
`installRes`/`rebootRes` feed a `tryImageUpgrade` attempt if one is made. -/
def getClientCerficates (eosUrl : List Char) (enrollRc : Nat) (enrollOut : List Char)
    (installRes rebootRes : Except (Nat × List Char) (List Char)) : EnrollStep :=
  if enrollRc = 0 then ⟨.completed, false, []⟩
  else if enrollRc = 124 then
    let up := tryImageUpgrade eosUrl (.calledProcessError 124 enrollOut) installRes rebootRes
    match up.1 with
    | .raised ex => ⟨.raised ex, true, up.2⟩
    | .completed => ⟨.completed, true, up.2⟩
  else ⟨.raised (.calledProcessError enrollRc enrollOut), false, []⟩

/-- The `certificate`/`key` pair held by the manager. -/
structure Credential where
  certificate : List Char
  key : List Char
deriving DecidableEq, Repr

/-- One value of the per-host JSON map printed by `TerminAttr -certsconfig`:
the `certFile`/`keyFile` members, each possibly absent. -/
structure CertsEntry where
  certFile : Option (List Char)
  keyFile : Option (List Char)
deriving DecidableEq, Repr

/-- Outcome of the `-certsconfig` subprocess call at bootstrap.py
lines 402-404: a `CalledProcessError`, or captured output together with the
result of `json.loads` on it (`none` when the output is not valid JSON,
`some` map of host keys otherwise). -/
inductive CertsCmdOutcome where
  | cmdError (returncode : Nat) (output : List Char)
  | output (parsed : Option (List (List Char × CertsEntry)))
deriving DecidableEq, Repr

/-- Result of `getCertificatePaths` together with the credential state the
manager is left in (also when an exception escapes). -/
inductive CertsResult where
  | ok (cred : Credential)
  | exn (e : PyExn) (cred : Credential)
deriving DecidableEq, Repr

/-- Python `dict` lookup on the parsed JSON map. -/
def lookupKey (k : List Char) : List (List Char × CertsEntry) → Option CertsEntry
  | [] => none
  | kv :: rest => if kv.1 = k then some kv.2 else lookupKey k rest

/-- `basePath` of bootstrap.py line 411. -/
def fallbackBasePath : List Char := ("/persist/secure/ssl/terminattr/primary").toList

/-- The fallback certificate path of bootstrap.py line 412. -/
def fallbackCertPath : List Char := fallbackBasePath ++ ("/certs/client.crt").toList

/-- The fallback key path of bootstrap.py line 413. -/
def fallbackKeyPath : List Char := fallbackBasePath ++ ("/keys/client.key").toList

/-- `BootstrapManager.getCertificatePaths` (bootstrap.py lines 395-417).
The `except` clause catches only `subprocess.CalledProcessError`; a
`json.loads` failure raises `ValueError` and a missing dict key raises
`KeyError`, neither of which is caught.  `self.certificate` is assigned
before `self.key`, so a missing `keyFile` leaves a partially updated
state behind the escaping `KeyError`. -/
def getCertificatePaths (enrollAddr : List Char) (cred : Credential) :
    CertsCmdOutcome → CertsResult
  | .cmdError _ _ => .ok ⟨fallbackCertPath, fallbackKeyPath⟩
  | .output none => .exn .valueError cred
  | .output (some m) =>
    match lookupKey enrollAddr m with
    | none => .exn (.keyError enrollAddr) cred
    | some entry =>
      match entry.certFile with
      | none => .exn (.keyError (("certFile").toList)) cred
      | some cf =>
        match entry.keyFile with
        | none => .exn (.keyError (("keyFile").toList)) { cred with certificate := cf }
        | some kf => .ok ⟨cf, kf⟩

/-- Outcome of `executeBootstrap`: the step finished normally, called
`sys.exit` with the child's return code, or raised. -/
inductive ExecOutcome where
  | completed
  | exited (code : Nat)
  | raised (e : PyExn)
deriving DecidableEq, Repr

/-- `BootstrapManager.executeBootstrap` (bootstrap.py lines 467-497).
`chmodRes` is the outcome of the `chmod +x` subprocess; `childRc` is the
return code of the executed bootstrap script (`proc.returncode`). -/
def executeBootstrap (chmodRes : Except (Nat × List Char) (List Char))
    (childRc : Nat) : ExecOutcome :=
  match chmodRes with
  | .error rcOut => .raised (.calledProcessError rcOut.1 rcOut.2)
  | .ok _ => if childRc ≠ 0 then .exited childRc else .completed

/-- Exit code of the whole process given how the final step ended: a normal
return reaches the end of `__main__` (exit 0), `sys.exit(rc)` exits with
`rc`, and an uncaught exception makes the interpreter exit 1. -/
def processExitCode : ExecOutcome → Nat
  | .completed => 0
  | .exited code => code
  | .raised _ => 1

/-- How `__main__` starts: an early `sys.exit(message)`, or a run with the
chosen manager variant (`true` selects `CloudBootstrapManager`). -/
inductive MainOutcome where
  | earlyExit (msg : List Char)
  | run (isCloud : Bool) (manager : ManagerState)
deriving DecidableEq, Repr

/-- The substring `"arista.io"` tested at bootstrap.py line 546. -/
def aristaIoStr : List Char := ("arista.io").toList

/-- The `__main__` guard and variant dispatch (bootstrap.py lines 538-549):
empty-address and empty-token checks, then
`cvAddr.find("arista.io") != -1` chooses the manager class. -/
def mainCheck (cvAddr enrollmentToken : List Char) : MainOutcome :=
  if cvAddr = [] then .earlyExit (("Error: address to CVP missing").toList)
  else if enrollmentToken = [] then .earlyExit (("error: enrollment token missing").toList)
  else if occursIn aristaIoStr cvAddr then .run true (cloudInit cvAddr)
  else .run false (onPremInit cvAddr)

/-- Whether `__main__` stopped at one of the two startup guards. -/
def isEarlyExit : MainOutcome → Bool
  | .earlyExit _ => true
  | .run _ _ => false

/-- Exit code fixed by `mainCheck` alone: `sys.exit(msg)` with a string
message exits with status 1; otherwise the code depends on the later steps. -/
def mainExitCode : MainOutcome → Option Nat
  | .earlyExit _ => some 1
  | .run _ _ => none

/-! ## Sanity checks of the embedding on concrete inputs -/

example : pyReplace ("apiserver").toList ("www").toList ("xapiserver.y").toList
    = ("xwww.y").toList := by decide

example : occursIn ("arista.io").toList ("apiserver.arista.io").toList = true := by decide

example : pySplitOn '\n' ("ab\nc").toList = [['a','b'], ['c']] := by decide

example : splitOnFirst ':' ("http://x").toList = some (("http").toList, ("//x").toList) := by
  decide

example : urlparse ("http://10.0.0.5/ztp/bootstrap").toList
    = ⟨("http").toList, ("10.0.0.5").toList, ("/ztp/bootstrap").toList, [], [], []⟩ := by
  decide

example : urlparse ("//www.arista.io").toList
    = ⟨[], ("www.arista.io").toList, [], [], [], []⟩ := by decide

example : urlparse ("//host:443/a;p?q#f").toList
    = ⟨[], ("host:443").toList, ("/a").toList, ['p'], ['q'], ['f']⟩ := by decide

example : urlparse ("//ftp://host/foo").toList
    = ⟨[], ("ftp:").toList, ("//host/foo").toList, [], [], []⟩ := by decide

example : urlparse ("http:///foo").toList
    = ⟨("http").toList, [], ("/foo").toList, [], [], []⟩ := by decide

example : urlparse ("//a#b?c").toList
    = ⟨[], ['a'], [], [], [], ("b?c").toList⟩ := by decide

example : urlparse ("//h/x;y/z;w?q").toList
    = ⟨[], ['h'], ("/x;y/z").toList, ['w'], ['q'], []⟩ := by decide

example : urlparse ("HTTP://Host/Path").toList
    = ⟨("http").toList, ("Host").toList, ("/Path").toList, [], [], []⟩ := by decide

example : getBootstrapURL false ("10.0.0.5").toList
    = ⟨("http").toList, ("10.0.0.5").toList, ztpBootstrapPath, [], [], []⟩ := by decide

example : getBootstrapURL true ("apiserver.arista.io").toList
    = ⟨("https").toList, ("www.arista.io").toList, ztpBootstrapPath, [], [], []⟩ := by decide

example : getBootstrapURL false ("http://10.0.0.5/ztp/bootstrap").toList
    = ⟨("http").toList, ("10.0.0.5").toList, ("/ztp/bootstrap").toList, [], [], []⟩ := by
  decide

example :
    enrollAddrAfterRedirect true (cloudInit (("apiserver.arista.io").toList))
      (("www.arista.io").toList) = some (("apiserver.arista.io:443").toList) := by decide

/-! ## Helper lemmas on the string primitives -/

theorem splitOnFirst_cons_ne (d c : Char) (s : List Char) (h : ¬ c = d) :
    splitOnFirst d (c :: s) = (splitOnFirst d s).map (fun p => (c :: p.1, p.2)) := by
  simp [splitOnFirst, h]

theorem splitOnFirst_cons_eq (d : Char) (s : List Char) :
    splitOnFirst d (d :: s) = some ([], s) := by
  simp [splitOnFirst]

theorem occursIn_cons_of_ne (a c : Char) (o s : List Char) (h : ¬ c = a) :
    occursIn (a :: o) (c :: s) = occursIn (a :: o) s := by
  have hp : (a :: o).isPrefixOf (c :: s) = false := by
    simp [List.isPrefixOf]
    intro hac
    exact absurd hac.symm h
  simp [occursIn, hp]

theorem occursIn_eq_false_tail (a c : Char) (o s : List Char)
    (h : occursIn (a :: o) (c :: s) = false) : occursIn (a :: o) s = false := by
  rw [occursIn, Bool.or_eq_false_iff] at h
  exact h.2

theorem pyReplaceA_succ (old new : List Char) (c : Char) (s : List Char) (k : Nat) :
    pyReplaceA old new (c :: s) (k + 1) = pyReplaceA old new s k := rfl

theorem pyReplaceA_skip (old new : List Char) :
    ∀ (x t : List Char), pyReplaceA old new (x ++ t) x.length = pyReplaceA old new t 0 := by
  intro x
  induction x with
  | nil => intro t; rfl
  | cons c x ih => intro t; simpa [pyReplaceA_succ] using ih t

theorem pyReplace_cons_of_ne (a c : Char) (o new s : List Char) (h : ¬ c = a) :
    pyReplace (a :: o) new (c :: s) = c :: pyReplace (a :: o) new s := by
  have hp : (a :: o).isPrefixOf (c :: s) = false := by
    simp [List.isPrefixOf]
    intro hac
    exact absurd hac.symm h
  simp [pyReplace, pyReplaceA, hp]

theorem pyReplace_append_match (a : Char) (o new t : List Char) :
    pyReplace (a :: o) new ((a :: o) ++ t) = new ++ pyReplace (a :: o) new t := by
  have hp : (a :: o).isPrefixOf ((a :: o) ++ t) = true :=
    List.isPrefixOf_iff_prefix.mpr (List.prefix_append _ _)
  have hlen : (a :: o).length - 1 = o.length := by simp
  rw [pyReplace, List.cons_append, pyReplaceA]
  rw [if_pos ⟨List.cons_ne_nil a o, hp⟩, hlen, pyReplaceA_skip]
  rfl

theorem pyReplace_of_not_occurs (old new : List Char) :
    ∀ s, occursIn old s = false → pyReplace old new s = s := by
  intro s
  induction s with
  | nil => intro _; rfl
  | cons c s ih =>
    intro h
    rw [occursIn, Bool.or_eq_false_iff] at h
    rw [pyReplace, pyReplaceA, if_neg (by simp [h.1])]
    have := ih h.2
    rw [pyReplace] at this
    rw [this]

theorem pyReplace_ne_nil (old new : List Char) (hnew : new ≠ []) (c : Char) (s : List Char) :
    pyReplace old new (c :: s) ≠ [] := by
  rw [pyReplace, pyReplaceA]
  split
  · cases new with
    | nil => exact absurd rfl hnew
    | cons b bs => simp
  · simp

theorem mem_pyReplaceA (old new : List Char) (p : Char → Bool)
    (hn : ∀ c ∈ new, p c = true) :
    ∀ (s : List Char) (k : Nat), (∀ c ∈ s, p c = true) →
      ∀ c ∈ pyReplaceA old new s k, p c = true := by
  intro s
  induction s with
  | nil =>
    intro k _ c hc
    simp [pyReplaceA] at hc
  | cons a s ih =>
    intro k hs c hc
    have hsTail : ∀ c ∈ s, p c = true := fun c hc => hs c (List.mem_cons_of_mem _ hc)
    match k with
    | Nat.succ k =>
      rw [pyReplaceA_succ] at hc
      exact ih k hsTail c hc
    | 0 =>
      rw [pyReplaceA] at hc
      split at hc
      · rcases List.mem_append.mp hc with hcn | hcr
        · exact hn c hcn
        · exact ih _ hsTail c hcr
      · rcases List.mem_cons.mp hc with hca | hcr
        · exact hca ▸ hs a (List.mem_cons_self a s)
        · exact ih 0 hsTail c hcr

theorem mem_pyReplace (old new : List Char) (p : Char → Bool)
    (hn : ∀ c ∈ new, p c = true) (s : List Char) (hs : ∀ c ∈ s, p c = true) :
    ∀ c ∈ pyReplace old new s, p c = true :=
  mem_pyReplaceA old new p hn s 0 hs

/-! ## Helper lemmas on the `urlparse` model -/

theorem splitScheme_cons_not_alpha (c : Char) (u : List Char) (h : c.isAlpha = false) :
    splitScheme (c :: u) = ([], c :: u) := by
  rw [splitScheme]
  by_cases hc : c = ':'
  · subst hc
    rw [splitOnFirst_cons_eq]
  · rw [splitOnFirst_cons_ne _ _ _ hc]
    cases hs : splitOnFirst ':' u with
    | none => rfl
    | some p => simp [h]

theorem splitScheme_http_pre (t : List Char) :
    splitScheme (("http://").toList ++ t) = (("http").toList, '/' :: '/' :: t) := by
  show splitScheme ('h' :: 't' :: 't' :: 'p' :: ':' :: '/' :: '/' :: t) = _
  rw [splitScheme, splitOnFirst_cons_ne _ _ _ (by decide),
    splitOnFirst_cons_ne _ _ _ (by decide), splitOnFirst_cons_ne _ _ _ (by decide),
    splitOnFirst_cons_ne _ _ _ (by decide), splitOnFirst_cons_eq]
  simp
  constructor
  · decide
  · decide

theorem splitScheme_https_pre (t : List Char) :
    splitScheme (("https://").toList ++ t) = (("https").toList, '/' :: '/' :: t) := by
  show splitScheme ('h' :: 't' :: 't' :: 'p' :: 's' :: ':' :: '/' :: '/' :: t) = _
  rw [splitScheme, splitOnFirst_cons_ne _ _ _ (by decide),
    splitOnFirst_cons_ne _ _ _ (by decide), splitOnFirst_cons_ne _ _ _ (by decide),
    splitOnFirst_cons_ne _ _ _ (by decide), splitOnFirst_cons_ne _ _ _ (by decide),
    splitOnFirst_cons_eq]
  simp
  constructor
  · decide
  · decide

/-- `urlparse` on `//` followed by delimiter-free text: the whole text is the
network location, every other component is empty. -/
theorem urlparse_dslash (t : List Char) (h : ∀ c ∈ t, netlocDelim c = false) :
    urlparse ('/' :: '/' :: t) = ⟨[], t, [], [], [], []⟩ := by
  have hscheme : splitScheme ('/' :: '/' :: t) = ([], '/' :: '/' :: t) :=
    splitScheme_cons_not_alpha '/' ('/' :: t) (by decide)
  have htake : t.takeWhile (fun c => !netlocDelim c) = t :=
    List.takeWhile_eq_self_iff.mpr (fun c hc => by rw [h c hc]; rfl)
  have hdrop : t.dropWhile (fun c => !netlocDelim c) = [] :=
    List.dropWhile_eq_nil_iff.mpr (fun c hc => by rw [h c hc]; rfl)
  rw [urlparse, hscheme]
  simp only [List.isPrefixOf, beq_self_eq_true, Bool.and_self, if_pos, List.drop_succ_cons,
    List.drop_zero, htake, hdrop]
  rfl

theorem urlparse_scheme_of_http_pre (addr : List Char)
    (h : ("http://").toList.isPrefixOf addr = true) :
    (urlparse addr).scheme = ("http").toList := by
  obtain ⟨t, rfl⟩ := List.isPrefixOf_iff_prefix.mp h
  rw [urlparse, splitScheme_http_pre]

theorem urlparse_scheme_of_https_pre (addr : List Char)
    (h : ("https://").toList.isPrefixOf addr = true) :
    (urlparse addr).scheme = ("https").toList := by
  obtain ⟨t, rfl⟩ := List.isPrefixOf_iff_prefix.mp h
  rw [urlparse, splitScheme_https_pre]

/-- A pattern containing a netloc delimiter is never a prefix of a
delimiter-free string. -/
theorem not_isPrefixOf_of_all_not_delim (p a : List Char)
    (hc : ∃ c ∈ p, netlocDelim c = true)
    (h1 : ∀ c ∈ a, netlocDelim c = false) : p.isPrefixOf a = false := by
  cases hp : p.isPrefixOf a with
  | false => rfl
  | true =>
    obtain ⟨c, hcp, hcd⟩ := hc
    have hsub := (List.isPrefixOf_iff_prefix.mp hp).subset hcp
    rw [h1 c hsub] at hcd
    exact absurd hcd (by decide)

theorem pyReplace_api_slash (s : List Char) :
    pyReplace apiserverStr wwwStr ('/' :: s) = '/' :: pyReplace apiserverStr wwwStr s := by
  have h : apiserverStr = 'a' :: ("piserver").toList := rfl
  rw [h, pyReplace_cons_of_ne _ _ _ _ _ (by decide)]

theorem mem_pyReplace_not_delim (a : List Char) (h1 : ∀ c ∈ a, netlocDelim c = false) :
    ∀ c ∈ pyReplace apiserverStr wwwStr a, netlocDelim c = false := by
  intro c hc
  have hp : (!netlocDelim c) = true :=
    mem_pyReplace apiserverStr wwwStr (fun c => !netlocDelim c)
      (by decide) a (fun c hc => by show (!netlocDelim c) = true; rw [h1 c hc]; rfl) c hc
  cases hd : netlocDelim c with
  | false => rfl
  | true => rw [hd] at hp; exact absurd hp (by decide)

/-- `getBootstrapURL` on a non-empty input without `/`, `?` or `#`: the
input becomes the host (with the cloud `apiserver`→`www` rewrite), the path
defaults to `/ztp/bootstrap` and the scheme to the variant default. -/
theorem getBootstrapURL_bare_host (isCloud : Bool) (a : List Char) (h0 : a ≠ [])
    (h1 : ∀ c ∈ a, netlocDelim c = false) :
    getBootstrapURL isCloud a =
      ⟨(if isCloud then ("https").toList else ("http").toList),
       (if isCloud then pyReplace apiserverStr wwwStr a else a),
       ztpBootstrapPath, [], [], []⟩ := by
  have hp1 : ("//").toList.isPrefixOf a = false :=
    not_isPrefixOf_of_all_not_delim _ a ⟨'/', by decide, by decide⟩ h1
  have hp2 : ("http://").toList.isPrefixOf a = false :=
    not_isPrefixOf_of_all_not_delim _ a ⟨'/', by decide, by decide⟩ h1
  have hp3 : ("https://").toList.isPrefixOf a = false :=
    not_isPrefixOf_of_all_not_delim _ a ⟨'/', by decide, by decide⟩ h1
  cases isCloud with
  | false =>
    have hu : urlparse ('/' :: '/' :: a) = ⟨[], a, [], [], [], []⟩ :=
      urlparse_dslash a h1
    simp only [getBootstrapURL, hp1, hp2, hp3]
    simp [hu, h0]
  | true =>
    have e2 : pyReplace apiserverStr wwwStr ('/' :: '/' :: a)
        = '/' :: '/' :: pyReplace apiserverStr wwwStr a := by
      rw [pyReplace_api_slash, pyReplace_api_slash]
    have hne : pyReplace apiserverStr wwwStr a ≠ [] := by
      cases a with
      | nil => exact absurd rfl h0
      | cons c s => exact pyReplace_ne_nil _ _ (by decide) c s
    have hu : urlparse ('/' :: '/' :: pyReplace apiserverStr wwwStr a)
        = ⟨[], pyReplace apiserverStr wwwStr a, [], [], [], []⟩ :=
      urlparse_dslash _ (mem_pyReplace_not_delim a h1)
    simp only [getBootstrapURL, hp1, hp2, hp3]
    simp [e2, hu, hne]

/-! ## Claim theorems -/

/-- C3: `tryImageUpgrade` with an empty `eosUrl` re-raises exactly the
original exception, unchanged, and issues no install or reboot command;
with a non-empty `eosUrl` it issues the install command and then the reboot
command, and a non-zero result from either raises a new descriptive fatal
error. -/
theorem tryImageUpgrade_policy (eosUrl : List Char) (e : PyExn)
    (installRes rebootRes : Except (Nat × List Char) (List Char)) :
    (eosUrl = [] → tryImageUpgrade eosUrl e installRes rebootRes = (.raised e, [])) ∧
    (eosUrl ≠ [] → (runCommands installRes).1 ≠ 0 →
      tryImageUpgrade eosUrl e installRes rebootRes
        = (.raised (.exception (upgradeFailMsg eosUrl (runCommands installRes).2)),
           [installCmdList eosUrl])) ∧
    (eosUrl ≠ [] → (runCommands installRes).1 = 0 → (runCommands rebootRes).1 ≠ 0 →
      tryImageUpgrade eosUrl e installRes rebootRes
        = (.raised (.exception (rebootFailMsg (runCommands rebootRes).2)),
           [installCmdList eosUrl, rebootCmdList])) ∧
    (eosUrl ≠ [] → (runCommands installRes).1 = 0 → (runCommands rebootRes).1 = 0 →
      tryImageUpgrade eosUrl e installRes rebootRes
        = (.completed, [installCmdList eosUrl, rebootCmdList])) := by
  refine ⟨fun h => ?_, fun h1 h2 => ?_, fun h1 h2 h3 => ?_, fun h1 h2 h3 => ?_⟩
  · simp [tryImageUpgrade, h]
  · simp [tryImageUpgrade, h1, h2]
  · simp [tryImageUpgrade, h1, h2, h3]
  · simp [tryImageUpgrade, h1, h2, h3]

/-- Witness for C3 at concrete inputs. -/
theorem tryImageUpgrade_policy_witness :
    tryImageUpgrade [] PyExn.valueError (.ok []) (.ok [])
      = (.raised PyExn.valueError, []) :=
  (tryImageUpgrade_policy [] PyExn.valueError (.ok []) (.ok [])).1 rfl

/-- C2: `getClientCerficates` maps the enrollment exit code as: 0 completes
the step normally; 124 transfers control to `tryImageUpgrade`; any other
non-zero exit re-raises the command error without invoking the upgrade
fallback. -/
theorem getClientCerficates_exit_codes (eosUrl enrollOut : List Char) (enrollRc : Nat)
    (installRes rebootRes : Except (Nat × List Char) (List Char)) :
    (enrollRc = 0 →
      getClientCerficates eosUrl enrollRc enrollOut installRes rebootRes
        = ⟨.completed, false, []⟩) ∧
    (enrollRc = 124 →
      (getClientCerficates eosUrl enrollRc enrollOut installRes rebootRes).upgradeAttempted
          = true ∧
      (getClientCerficates eosUrl enrollRc enrollOut installRes rebootRes).issuedCmds
        = (tryImageUpgrade eosUrl (.calledProcessError 124 enrollOut)
            installRes rebootRes).2) ∧
    (enrollRc ≠ 0 → enrollRc ≠ 124 →
      getClientCerficates eosUrl enrollRc enrollOut installRes rebootRes
        = ⟨.raised (.calledProcessError enrollRc enrollOut), false, []⟩) := by
  refine ⟨fun h => ?_, fun h => ?_, fun h0 h124 => ?_⟩
  · simp [getClientCerficates, h]
  · subst h
    cases hup : (tryImageUpgrade eosUrl (.calledProcessError 124 enrollOut)
        installRes rebootRes).1 <;>
      simp [getClientCerficates, hup]
  · simp [getClientCerficates, h0, h124]

/-- Witness for C2 at concrete inputs. -/
theorem getClientCerficates_exit_codes_witness :
    getClientCerficates [] 5 [] (.ok []) (.ok [])
      = ⟨.raised (.calledProcessError 5 []), false, []⟩ :=
  (getClientCerficates_exit_codes [] [] 5 (.ok []) (.ok [])).2.2
    (by decide) (by decide)

/-- C7: with no redirector URL configured (on-prem construction),
`checkWithRedirector` returns at once, makes no network call, and leaves
the manager state exactly as built from the user-supplied address. -/
theorem checkWithRedirector_onprem_frame (cvAddr : List Char)
    (redirResp : Except (List Char) (List Char)) :
    checkWithRedirector false (onPremInit cvAddr) redirResp
        = (.ok (onPremInit cvAddr), false) ∧
    (onPremInit cvAddr).bootstrapURL = some (getBootstrapURL false cvAddr) ∧
    (onPremInit cvAddr).enrollAddr = some ((getBootstrapURL false cvAddr).netloc) :=
  ⟨rfl, rfl, rfl⟩

/-- C8: after a successful `chmod`, the process exit code equals the
executed bootstrap script's exit code: a non-zero child code is passed to
`sys.exit`, a zero child code completes the run (exit 0). -/
theorem executeBootstrap_exit_code (chmodOut : List Char) (childRc : Nat) :
    processExitCode (executeBootstrap (.ok chmodOut) childRc) = childRc ∧
    (childRc ≠ 0 → executeBootstrap (.ok chmodOut) childRc = .exited childRc) ∧
    (executeBootstrap (.ok chmodOut) 0 = .completed) := by
  by_cases h : childRc = 0
  · subst h
    exact ⟨rfl, fun hc => absurd rfl hc, rfl⟩
  · exact ⟨by simp [executeBootstrap, processExitCode, h],
      fun _ => by simp [executeBootstrap, h], rfl⟩

/-- Witness for C8 at concrete inputs. -/
theorem executeBootstrap_exit_code_witness :
    processExitCode (executeBootstrap (.ok []) 7) = 7 ∧
    executeBootstrap (.ok []) 7 = .exited 7 ∧
    executeBootstrap (.ok []) 0 = .completed :=
  ⟨(executeBootstrap_exit_code [] 7).1,
   (executeBootstrap_exit_code [] 7).2.1 (by decide),
   (executeBootstrap_exit_code [] 0).2.2⟩

/-- C9: with both startup guards passed, the cloud manager (secure token
type, redirector configured) is chosen exactly when the address contains
the substring `arista.io`; every other address yields the on-prem manager
(plain ingest token, no redirector). -/
theorem variant_dispatch (cvAddr tok : List Char) (ha : cvAddr ≠ []) (ht : tok ≠ []) :
    (occursIn aristaIoStr cvAddr = true →
      mainCheck cvAddr tok = .run true (cloudInit cvAddr) ∧
      (cloudInit cvAddr).tokenType = some SECURE_TOKEN ∧
      (cloudInit cvAddr).redirectorURL ≠ none) ∧
    (occursIn aristaIoStr cvAddr = false →
      mainCheck cvAddr tok = .run false (onPremInit cvAddr) ∧
      (onPremInit cvAddr).tokenType = some INGEST_TOKEN ∧
      (onPremInit cvAddr).redirectorURL = none) := by
  constructor
  · intro h
    exact ⟨by simp [mainCheck, ha, ht, h], rfl, by simp [cloudInit]⟩
  · intro h
    exact ⟨by simp [mainCheck, ha, ht, h], rfl, rfl⟩

/-- Witness for C9 at concrete inputs. -/
theorem variant_dispatch_witness :
    (mainCheck ("apiserver.arista.io").toList ['t']
        = .run true (cloudInit ("apiserver.arista.io").toList) ∧
      (cloudInit ("apiserver.arista.io").toList).tokenType = some SECURE_TOKEN ∧
      (cloudInit ("apiserver.arista.io").toList).redirectorURL ≠ none) ∧
    (mainCheck ("10.0.0.5").toList ['t']
        = .run false (onPremInit ("10.0.0.5").toList) ∧
      (onPremInit ("10.0.0.5").toList).tokenType = some INGEST_TOKEN ∧
      (onPremInit ("10.0.0.5").toList).redirectorURL = none) :=
  ⟨(variant_dispatch _ _ (by decide) (by decide)).1 (by decide),
   (variant_dispatch _ _ (by decide) (by decide)).2 (by decide)⟩

/-- C10: an empty configured address or an empty enrollment token makes
`__main__` stop at the startup guards with a non-zero exit (`sys.exit`
with a message string exits 1), before any manager is constructed. -/
theorem mainCheck_empty_guards (cvAddr tok : List Char) (h : cvAddr = [] ∨ tok = []) :
    isEarlyExit (mainCheck cvAddr tok) = true ∧
    mainExitCode (mainCheck cvAddr tok) = some 1 := by
  rcases h with h | h
  · subst h
    exact ⟨rfl, rfl⟩
  · subst h
    by_cases ha : cvAddr = [] <;>
      simp [mainCheck, ha, isEarlyExit, mainExitCode]

/-- Witness for C10 at concrete inputs. -/
theorem mainCheck_empty_guards_witness :
    isEarlyExit (mainCheck [] ['t']) = true ∧
    mainExitCode (mainCheck [] ['t']) = some 1 :=
  mainCheck_empty_guards [] ['t'] (Or.inl rfl)

/-- C1 (counterexample): on command output that is not valid JSON,
`getCertificatePaths` does not fall back — the uncaught `ValueError`
aborts the step — and on a host entry whose `keyFile` member is missing it
leaves a partially-updated credential behind the escaping `KeyError`. -/
theorem getCertificatePaths_json_cex :
    getCertificatePaths ['h'] ⟨[], []⟩ (.output none) = .exn .valueError ⟨[], []⟩ ∧
    (CertsResult.exn .valueError ⟨[], []⟩
      ≠ .ok ⟨fallbackCertPath, fallbackKeyPath⟩) ∧
    getCertificatePaths ['h'] ⟨[], []⟩
        (.output (some [(['h'], ⟨some ['c'], none⟩)]))
      = .exn (.keyError (("keyFile").toList)) ⟨['c'], []⟩ := by
  refine ⟨rfl, by decide, rfl⟩

/-- C1 (amended): only a non-zero exit of the local agent command is
caught; exactly then the credential is set to the fixed fallback pair
(never a partial value).  Output that is not valid JSON, or a parsed map
with no entry for the enrollment host, raises an uncaught exception and
the step aborts. -/
theorem getCertificatePaths_fallback_policy (enrollAddr : List Char) (cred : Credential)
    (rc : Nat) (out : List Char) :
    (getCertificatePaths enrollAddr cred (.cmdError rc out)
        = .ok ⟨fallbackCertPath, fallbackKeyPath⟩) ∧
    (getCertificatePaths enrollAddr cred (.output none) = .exn .valueError cred) ∧
    (∀ m, lookupKey enrollAddr m = none →
      getCertificatePaths enrollAddr cred (.output (some m))
        = .exn (.keyError enrollAddr) cred) := by
  refine ⟨rfl, rfl, fun m hm => ?_⟩
  simp [getCertificatePaths, hm]

/-- Witness for C1's amended theorem at concrete inputs. -/
theorem getCertificatePaths_fallback_policy_witness :
    getCertificatePaths ['h'] ⟨[], []⟩ (.output (some []))
      = .exn (.keyError ['h']) ⟨[], []⟩ :=
  (getCertificatePaths_fallback_policy ['h'] ⟨[], []⟩ 0 []).2.2 [] rfl

/-- C4 (counterexample): in the cloud variant the bare host
`apiserver.foo.com` resolves with host `www.foo.com`, not the input
string. -/
theorem bare_host_cloud_rewrite_cex :
    (getBootstrapURL true ("apiserver.foo.com").toList).netloc = ("www.foo.com").toList ∧
    ("www.foo.com").toList ≠ ("apiserver.foo.com").toList := by
  exact ⟨by decide, by decide⟩

/-- C4 (amended): every non-empty bare-host input (no `/`, `?` or `#`)
resolves to scheme `https` (cloud) / `http` (on-prem) and path
`/ztp/bootstrap`; the host equals the input in the on-prem variant, and
the input with every `apiserver` occurrence rewritten to `www` in the
cloud variant. -/
theorem bare_host_resolution (isCloud : Bool) (a : List Char) (h0 : a ≠ [])
    (h1 : ∀ c ∈ a, netlocDelim c = false) :
    (getBootstrapURL isCloud a).scheme
        = (if isCloud then ("https").toList else ("http").toList) ∧
    (getBootstrapURL isCloud a).netloc
        = (if isCloud then pyReplace apiserverStr wwwStr a else a) ∧
    (getBootstrapURL isCloud a).path = ztpBootstrapPath := by
  rw [getBootstrapURL_bare_host isCloud a h0 h1]
  exact ⟨rfl, rfl, rfl⟩

/-- Witness for C4's amended theorem at concrete inputs. -/
theorem bare_host_resolution_witness :
    (getBootstrapURL false ("10.0.0.5").toList).scheme = ("http").toList ∧
    (getBootstrapURL false ("10.0.0.5").toList).netloc = ("10.0.0.5").toList ∧
    (getBootstrapURL false ("10.0.0.5").toList).path = ztpBootstrapPath := by
  have h := bare_host_resolution false (("10.0.0.5").toList) (by decide) (by decide)
  exact h

/-- C5 (counterexample): three scheme-and-path inputs that are not left
untouched: an `ftp://` address has its scheme replaced by the variant
default, a cloud address with `apiserver` in the path has the path
rewritten, and an empty-host address has its path replaced by the default
enrollment path. -/
theorem scheme_path_preservation_cex :
    ((urlparse ("ftp://host/foo").toList).scheme = ("ftp").toList ∧
      (urlparse ("ftp://host/foo").toList).path = ("/foo").toList ∧
      (getBootstrapURL false ("ftp://host/foo").toList).scheme = ("http").toList ∧
      ("http").toList ≠ ("ftp").toList) ∧
    ((urlparse ("https://host/apiserver").toList).path = ("/apiserver").toList ∧
      (getBootstrapURL true ("https://host/apiserver").toList).path = ("/www").toList ∧
      ("/www").toList ≠ ("/apiserver").toList) ∧
    ((urlparse ("http:///foo").toList).scheme = ("http").toList ∧
      (urlparse ("http:///foo").toList).path = ("/foo").toList ∧
      (getBootstrapURL false ("http:///foo").toList).path = ztpBootstrapPath ∧
      ztpBootstrapPath ≠ ("/foo").toList) := by
  refine ⟨⟨?_, ?_, ?_, ?_⟩, ⟨?_, ?_, ?_⟩, ⟨?_, ?_, ?_, ?_⟩⟩ <;> decide

/-- C5 (amended): for an address starting with `http://` or `https://`
whose parsed host and path are non-empty, `getBootstrapURL` keeps the
parsed scheme and path unchanged — in the cloud variant provided the
address contains no `apiserver` occurrence (otherwise those occurrences
are rewritten to `www`). -/
theorem scheme_path_preservation (isCloud : Bool) (addr : List Char)
    (hpre : ("http://").toList.isPrefixOf addr = true ∨
      ("https://").toList.isPrefixOf addr = true)
    (hnet : (urlparse addr).netloc ≠ [])
    (hpath : (urlparse addr).path ≠ [])
    (hcloud : isCloud = true → occursIn apiserverStr addr = false) :
    (getBootstrapURL isCloud addr).scheme = (urlparse addr).scheme ∧
    (getBootstrapURL isCloud addr).path = (urlparse addr).path := by
  have hpre' : (("//").toList.isPrefixOf addr || ("http://").toList.isPrefixOf addr ||
      ("https://").toList.isPrefixOf addr) = true := by
    rcases hpre with h | h
    · rw [h, Bool.or_true, Bool.true_or]
    · rw [h, Bool.or_true]
  have hscheme : (urlparse addr).scheme ≠ [] := by
    rcases hpre with h | h
    · rw [urlparse_scheme_of_http_pre addr h]
      decide
    · rw [urlparse_scheme_of_https_pre addr h]
      decide
  have haddr2 : (if isCloud then pyReplace apiserverStr wwwStr addr else addr) = addr := by
    cases isCloud with
    | false => rfl
    | true => exact pyReplace_of_not_occurs _ _ addr (hcloud rfl)
  simp only [getBootstrapURL]
  rw [if_pos hpre', haddr2, if_neg hnet, if_neg hpath, if_neg hscheme]
  exact ⟨rfl, rfl⟩

/-- Witness for C5's amended theorem at concrete inputs. -/
theorem scheme_path_preservation_witness :
    (getBootstrapURL false ("http://10.0.0.5/custom/path").toList).scheme
        = (urlparse ("http://10.0.0.5/custom/path").toList).scheme ∧
    (getBootstrapURL false ("http://10.0.0.5/custom/path").toList).path
        = (urlparse ("http://10.0.0.5/custom/path").toList).path :=
  scheme_path_preservation false (("http://10.0.0.5/custom/path").toList)
    (Or.inl (by decide)) (by decide) (by decide) (by decide)

/-- C6 (counterexample): the suffix test is `endswith("443")`, not
`endswith(":443")`: for a redirector-returned host on port 8443 — which
does not carry a `:443` suffix — no `:443` is appended to the derived
enrollment address. -/
theorem cloud_redirector_port_cex :
    ((":443").toList.isSuffixOf (("www.foo.com:8443").toList) = false) ∧
    enrollAddrAfterRedirect true (cloudInit (("apiserver.foo.com").toList))
        (("www.foo.com:8443").toList)
      = some (("apiserver.foo.com:8443").toList) ∧
    some (("apiserver.foo.com:8443").toList)
      ≠ some (("apiserver.foo.com:8443:443").toList) := by
  refine ⟨by decide, by decide, by decide⟩

/-- C6 (amended): in the cloud variant, for a delimiter-free domain with no
further `apiserver`/`www` occurrences, `apiserver.<domain>` is resolved to
host `www.<domain>` in the redirector URL before the call is made; the
enrollment address derived from a returned host `www.<domain>` has `www`
rewritten back to `apiserver`, with `:443` appended exactly when the
derived host does not already end with the three characters `443`. -/
theorem cloud_redirector_host_rewrite (d : List Char)
    (hd : ∀ c ∈ d, netlocDelim c = false)
    (hapi : occursIn apiserverStr d = false)
    (hwww : occursIn wwwStr (d ++ ':' :: SECURE_HTTPS_PORT) = false)
    (h443 : SECURE_HTTPS_PORT.isSuffixOf (("www.").toList ++ d) = false) :
    redirectorHost (cloudInit (("apiserver.").toList ++ d))
        = some (("www.").toList ++ d) ∧
    enrollAddrAfterRedirect true (cloudInit (("apiserver.").toList ++ d))
        (("www.").toList ++ d)
      = some (("apiserver.").toList ++ (d ++ ':' :: SECURE_HTTPS_PORT)) := by
  have hds : ∀ c ∈ ("apiserver.").toList, netlocDelim c = false := by decide
  have hA : ("apiserver.").toList ++ d ≠ [] := List.cons_ne_nil _ _
  have hdelimA : ∀ c ∈ ("apiserver.").toList ++ d, netlocDelim c = false := by
    intro c hc
    rcases List.mem_append.mp hc with h | h
    · exact hds c h
    · exact hd c h
  have hrepA : pyReplace apiserverStr wwwStr (("apiserver.").toList ++ d)
      = ("www.").toList ++ d := by
    show pyReplace ('a' :: ("piserver").toList) wwwStr
        (('a' :: ("piserver").toList) ++ ('.' :: d)) = ("www.").toList ++ d
    rw [pyReplace_append_match, pyReplace_cons_of_ne _ _ _ _ _ (by decide)]
    have hocc : occursIn ('a' :: ("piserver").toList) d = false := hapi
    rw [pyReplace_of_not_occurs _ _ d hocc]
    rfl
  have hbA := getBootstrapURL_bare_host true (("apiserver.").toList ++ d) hA hdelimA
  have hnetA : (getBootstrapURL true (("apiserver.").toList ++ d)).netloc
      = ("www.").toList ++ d := by
    rw [hbA, hrepA]
    rfl
  constructor
  · exact congrArg some hnetA
  · have hW : ("www.").toList ++ d ≠ [] := List.cons_ne_nil _ _
    have hdelimW : ∀ c ∈ ("www.").toList ++ d, netlocDelim c = false := by
      intro c hc
      rcases List.mem_append.mp hc with h | h
      · exact (by decide : ∀ c ∈ ("www.").toList, netlocDelim c = false) c h
      · exact hd c h
    have hapiW : occursIn apiserverStr (("www.").toList ++ d) = false := by
      show occursIn ('a' :: ("piserver").toList) ('w' :: 'w' :: 'w' :: '.' :: d) = false
      rw [occursIn_cons_of_ne _ _ _ _ (by decide), occursIn_cons_of_ne _ _ _ _ (by decide),
        occursIn_cons_of_ne _ _ _ _ (by decide), occursIn_cons_of_ne _ _ _ _ (by decide)]
      exact hapi
    have hrepW : pyReplace apiserverStr wwwStr (("www.").toList ++ d)
        = ("www.").toList ++ d :=
      pyReplace_of_not_occurs _ _ _ hapiW
    have hbW := getBootstrapURL_bare_host true (("www.").toList ++ d) hW hdelimW
    have hnetW : (getBootstrapURL true (("www.").toList ++ d)).netloc
        = ("www.").toList ++ d := by
      rw [hbW, hrepW]
      rfl
    have hrep2 : pyReplace wwwStr apiserverStr
        ((("www.").toList ++ d) ++ ':' :: SECURE_HTTPS_PORT)
        = ("apiserver.").toList ++ (d ++ ':' :: SECURE_HTTPS_PORT) := by
      show pyReplace ('w' :: ("ww").toList) apiserverStr
          (('w' :: ("ww").toList) ++ ('.' :: (d ++ ':' :: SECURE_HTTPS_PORT)))
        = ("apiserver.").toList ++ (d ++ ':' :: SECURE_HTTPS_PORT)
      rw [pyReplace_append_match, pyReplace_cons_of_ne _ _ _ _ _ (by decide)]
      have hocc : occursIn ('w' :: ("ww").toList) (d ++ ':' :: SECURE_HTTPS_PORT)
          = false := hwww
      rw [pyReplace_of_not_occurs _ _ _ hocc]
      rfl
    have hcond : (!(SECURE_HTTPS_PORT.isSuffixOf
        (getBootstrapURL true (("www.").toList ++ d)).netloc)) = true := by
      rw [hnetW, h443]
      rfl
    have hfinal : pyReplace wwwStr apiserverStr
        (if (!(SECURE_HTTPS_PORT.isSuffixOf
              (getBootstrapURL true (("www.").toList ++ d)).netloc))
          then (getBootstrapURL true (("www.").toList ++ d)).netloc
              ++ ':' :: SECURE_HTTPS_PORT
          else (getBootstrapURL true (("www.").toList ++ d)).netloc)
        = ("apiserver.").toList ++ (d ++ ':' :: SECURE_HTTPS_PORT) := by
      rw [if_pos hcond, hnetW, hrep2]
    exact congrArg some hfinal

/-- Witness for C6's amended theorem at concrete inputs. -/
theorem cloud_redirector_host_rewrite_witness :
    redirectorHost (cloudInit (("apiserver.").toList ++ ("foo.com").toList))
        = some (("www.").toList ++ ("foo.com").toList) ∧
    enrollAddrAfterRedirect true
        (cloudInit (("apiserver.").toList ++ ("foo.com").toList))
        (("www.").toList ++ ("foo.com").toList)
      = some (("apiserver.").toList ++ (("foo.com").toList ++ ':' :: SECURE_HTTPS_PORT)) :=
  cloud_redirector_host_rewrite (("foo.com").toList)
    (by decide) (by decide) (by decide) (by decide)

end Bootstrap
